import Mathlib

/-!
Verification of the juju-gui navigation-state parser (`State`,
`app/state/state.js`).  The repository ships the parser's Mocha test
suite (`app/state/test-state.js`); the implementation file itself is not
part of the available sources, so every definition below is modelled
from the specification's component design and checked, case by case,
against the input/output pairs of the test suite.
-/

/-- Modelled from the spec: the fixed set of reserved top-level view
keywords recognised by the RootSectionParser (the implementation file
`state.js` is missing; the five keywords are the ones exercised by the
test suite and listed in the spec). -/
def ROOT_RESERVED : List String := ["new", "store", "about", "docs", "login"]

/-- Modelled from the spec: the fixed set of reserved profile suffixes
of the UserStoreSectionParser. -/
def PROFILE_RESERVED : List String := ["settings", "charms", "issues", "revenue"]

/-- Modelled from the spec: the fixed set of panel sub-markers of the
GuiSectionParser. -/
def GUI_MARKERS : List String := ["inspector", "machines", "applications", "deploy"]

/-- Modelled from the spec: the built-in default series list used when
the configuration supplies none. -/
def DEFAULT_SERIES_LIST : List String := ["bundle", "precise", "trusty", "xenial"]

/-- A segment is all-digit when it is nonempty and every character is a
decimal digit (the revision test of the store grammar). -/
def isDigits (s : String) : Bool :=
  !s.toList.isEmpty && s.toList.all (fun c => c.isDigit)

/-- Join a list of segments with the path separator. -/
def joinSlash : List String → String
  | [] => ""
  | [s] => s
  | s :: rest => s ++ "/" ++ joinSlash rest

/-- Modelled from the spec: collapse every run of separators into a
single separator (part of the PathNormalizer, whose implementation file
is missing). -/
def collapseSl : List Char → List Char
  | [] => []
  | [c] => [c]
  | c :: c2 :: rest =>
    if c = '/' ∧ c2 = '/' then collapseSl (c2 :: rest)
    else c :: collapseSl (c2 :: rest)

/-- Strip a single leading separator. -/
def stripLead (l : List Char) : List Char :=
  match l with
  | '/' :: rest => rest
  | _ => l

/-- Strip a single trailing separator. -/
def stripTrail (l : List Char) : List Char :=
  (stripLead l.reverse).reverse

/-- Modelled from the spec: remove the configured base-URL prefix from
the raw location (case-sensitive exact prefix match). -/
def stripBase (base url : String) : String :=
  if base.toList.isPrefixOf url.toList then
    String.mk (url.toList.drop base.toList.length)
  else url

/-- Modelled from the spec: the PathNormalizer `_getCleanPath` — strip
the base prefix, collapse repeated separators, trim a single leading and
trailing separator. -/
def _getCleanPath (base url : String) : String :=
  String.mk (stripTrail (stripLead (collapseSl (stripBase base url).toList)))

/-- Split a cleaned path into its ordered sequence of nonempty segments. -/
def splitSegsAux (cur : List Char) : List Char → List String
  | [] => if cur.isEmpty then [] else [String.mk cur.reverse]
  | c :: rest =>
    if c = '/' then
      if cur.isEmpty then splitSegsAux [] rest
      else String.mk cur.reverse :: splitSegsAux [] rest
    else splitSegsAux (c :: cur) rest

/-- Modelled from the spec: the PathNormalizer's final step, splitting
into nonempty segment strings. -/
def splitSegs (s : String) : List String :=
  splitSegsAux [] s.toList

/-- The embedded panel ("gui") sub-state: independently-optional string
fields keyed by panel sub-marker. -/
structure GuiState where
  inspector : Option String := none
  machines : Option String := none
  applications : Option String := none
  deploy : Option String := none
  deriving Repr, DecidableEq

/-- The navigation state record produced by `buildState`: every field is
independently optional, and an empty string value is distinct from
absence. -/
structure NavState where
  root : Option String := none
  search : Option String := none
  profile : Option String := none
  user : Option String := none
  store : Option String := none
  gui : Option GuiState := none
  deriving Repr, DecidableEq

/-- Set the gui field named by a recognised sub-marker. -/
def setGui (g : GuiState) (m v : String) : GuiState :=
  if m = "inspector" then { g with inspector := some v }
  else if m = "machines" then { g with machines := some v }
  else if m = "applications" then { g with applications := some v }
  else if m = "deploy" then { g with deploy := some v }
  else g

/-- Modelled from the spec: the GuiSectionParser scan — segments are
consumed left to right, each recognised sub-marker capturing the
following segments up to the next recognised sub-marker, joined with the
separator. -/
def parseGUIloop (g : GuiState) (m : String) (acc : List String) :
    List String → GuiState
  | [] => setGui g m (joinSlash acc.reverse)
  | s :: rest =>
    if GUI_MARKERS.contains s then
      parseGUIloop (setGui g m (joinSlash acc.reverse)) s [] rest
    else
      parseGUIloop g m (s :: acc) rest

/-- Modelled from the spec: `_parseGUI` — applied to the segments
following the panel-prefix marker; fails with "invalid GUI path." when
the first segment (if any) is not a recognised sub-marker. -/
def _parseGUI (parts : List String) (state : NavState) :
    NavState × Option String :=
  match parts with
  | [] => (state, some "invalid GUI path.")
  | s :: rest =>
    if GUI_MARKERS.contains s then
      ({ state with gui := some (parseGUIloop {} s [] rest) }, none)
    else (state, some "invalid GUI path.")

/-- Modelled from the spec: the store-shape matcher shared by the
user/store section and the top-level store parse — the valid shapes are
`[name]`, `[name, series-or-revision]` and `[name, series, revision]`,
consuming the whole list. -/
def storeMatch (seriesList : List String) : List String → Option String
  | [name] => some name
  | [name, x] =>
    if seriesList.contains x || isDigits x then some (name ++ "/" ++ x)
    else none
  | [name, series, rev] =>
    if seriesList.contains series && isDigits rev then
      some (name ++ "/" ++ series ++ "/" ++ rev)
    else none
  | _ => none

/-- Modelled from the spec: the nested invocation of the user/store
section parser, entered on a second owner-prefix marker; it may resolve
only to `store`, and every shape that is not a valid owner-plus-store
match is the failure "invalid user store path.". -/
def parseUserNested (seriesList : List String) (parts : List String)
    (state : NavState) : NavState × List String × Option String :=
  match parts with
  | _ :: owner :: R =>
    match storeMatch seriesList R with
    | some s => ({ state with store := some (owner ++ "/" ++ s) }, [], none)
    | none => (state, [], some "invalid user store path.")
  | _ => (state, [], some "invalid user store path.")

/-- Modelled from the spec: hand the leftover segments of a resolved
primary user/store section to the leftover re-parser — a leftover that
begins with the owner-prefix marker re-enters a nested user/store parse,
any other leftover is returned to the orchestrator unaltered. -/
def handleLeftover (seriesList : List String) (state : NavState)
    (leftover : List String) : NavState × List String × Option String :=
  if leftover.head? = some "u" then parseUserNested seriesList leftover state
  else (state, leftover, none)

/-- Modelled from the spec: `_parseUser`, the primary user/store section
parser.  It disambiguates among profile suffixes, owner/environment
pairs and owner/name/series/revision store references, recursing into a
nested parse on a second owner-prefix marker, exactly as pinned down by
the test suite's `_parseUser` vectors. -/
def _parseUser (seriesList : List String) (parts : List String)
    (state : NavState) : NavState × List String × Option String :=
  match parts with
  | [] => (state, [], none)
  | p0 :: rest =>
    if p0 = "u" then
      match rest with
      | [] => (state, [], some "invalid user path.")
      | owner :: R =>
        match R with
        | [] => ({ state with profile := some owner }, [], none)
        | r0 :: rtail =>
          if PROFILE_RESERVED.contains r0 then
            handleLeftover seriesList
              { state with profile := some (owner ++ "/" ++ r0) } rtail
          else if r0 = "u" then
            ({ state with profile := some owner }, [],
              some "invalid user store path.")
          else if rtail.isEmpty then
            ({ state with user := some (owner ++ "/" ++ r0) }, [], none)
          else
            match storeMatch seriesList R with
            | some s =>
              ({ state with store := some (owner ++ "/" ++ s) }, [], none)
            | none =>
              handleLeftover seriesList
                { state with user := some (owner ++ "/" ++ r0) } rtail
    else (state, parts, none)

/-- Modelled from the spec: the orchestrator's gui stage — the first
occurrence of the panel-prefix marker splits the path; the segments
after it are the gui section, the segments before it remain for the
user/store stages. -/
def guiSplit : List String → List String × Option (List String)
  | [] => ([], none)
  | p :: rest =>
    if p = "i" then ([], some rest)
    else
      let r := guiSplit rest
      (p :: r.1, r.2)

/-- Gui stage of the orchestrator: returns the state contributed by the
gui section, the segments before the panel-prefix marker, and the gui
section's error, if any. -/
def guiStage (parts : List String) : NavState × List String × Option String :=
  match (guiSplit parts).2 with
  | none => ({}, (guiSplit parts).1, none)
  | some gparts =>
    ((_parseGUI gparts {}).1, (guiSplit parts).1, (_parseGUI gparts {}).2)

/-- User stage of the orchestrator: the user/store section parser claims
the segments exactly when they begin with the owner-prefix marker. -/
def userStage (seriesList : List String) (parts : List String)
    (st : NavState) : NavState × List String × Option String :=
  if parts.head? = some "u" then _parseUser seriesList parts st
  else (st, parts, none)

/-- Store stage of the orchestrator: the remaining segments must be a
top-level store match; a misplaced owner-prefix marker among them resets
the state and fails with "invalid user path."; otherwise a failed store
match is "invalid store path.".  An earlier gui error, when present, is
the error reported. -/
def storeStage (seriesList : List String) (parts : List String)
    (st : NavState) (gerr : Option String) : NavState × Option String :=
  if parts.isEmpty then (st, gerr)
  else if parts.contains "u" then ({}, some "invalid user path.")
  else
    match storeMatch seriesList parts with
    | some s => ({ st with store := some s }, gerr)
    | none => (st, if gerr.isSome then gerr else some "invalid store path.")

/-- Sequencing of the user and store stages: a user/store section error
stops the orchestrator immediately. -/
def afterUser (seriesList : List String) (gerr : Option String)
    (t : NavState × List String × Option String) : NavState × Option String :=
  match t.2.2 with
  | some e => (t.1, some e)
  | none => storeStage seriesList t.2.1 t.1 gerr

/-- Sequencing of the gui, user and store stages. -/
def afterGui (seriesList : List String)
    (t : NavState × List String × Option String) : NavState × Option String :=
  afterUser seriesList t.2.2 (userStage seriesList t.2.1 t.1)

/-- Modelled from the spec: the orchestrator over normalized segments —
try Root, then Search, then extract and parse the gui section, then the
user/store section, then a top-level store match on whatever remains. -/
def buildStateSegs (seriesList : List String) (parts : List String) :
    NavState × Option String :=
  match parts with
  | [] => ({}, none)
  | p0 :: rest =>
    if ROOT_RESERVED.contains p0 then
      ({ root := some p0 },
        if rest.isEmpty then none else some "invalid root path.")
    else if p0 = "q" then
      if rest.isEmpty then ({}, none)
      else ({ search := some (joinSlash rest) }, none)
    else
      afterGui seriesList (guiStage (p0 :: rest))

/-- The constructed parser: its read-only configuration. -/
structure State where
  baseURL : String
  seriesList : List String
  deriving Repr, DecidableEq

/-- A configuration value that is either a plain string or an array of
strings, mirroring the dynamically-typed `seriesList` option. -/
inductive ConfigVal where
  | str : String → ConfigVal
  | arr : List String → ConfigVal
  deriving Repr, DecidableEq

/-- The raw configuration object handed to the constructor. -/
structure StateConfig where
  baseURL : Option String := none
  seriesList : Option ConfigVal := none

/-- Modelled from the spec: `new State(config)` — a missing baseURL
throws, a non-array seriesList throws, an omitted seriesList defaults to
the built-in list, and the literal "bundle" is appended to a supplied
list when not already present. -/
def State.make (config : StateConfig) : Except String State :=
  match config.baseURL with
  | none => .error "baseURL must be provided."
  | some b =>
    match config.seriesList with
    | none => .ok { baseURL := b, seriesList := DEFAULT_SERIES_LIST }
    | some (.str _) => .error "Series list must be an Array."
    | some (.arr l) =>
      .ok { baseURL := b,
            seriesList := if l.contains "bundle" then l else l ++ ["bundle"] }

/-- Modelled from the spec: `buildState(url)` — normalize the location,
then run the orchestrator; always returns a (state, error) pair and
never throws on a malformed path. -/
def buildState (st : State) (url : String) : NavState × Option String :=
  buildStateSegs st.seriesList (splitSegs (_getCleanPath st.baseURL url))

/-- The configuration used throughout the repository's test suite. -/
def testState : State :=
  { baseURL := "http://abc.com:123", seriesList := DEFAULT_SERIES_LIST }

/-- Characterization of the store shapes, written from the spec's words:
a store match succeeds exactly for `[name]`,
`[name, series-or-revision]` and `[name, series, revision]`, where the
series must belong to the configured series list and the revision must
be all-digit. -/
def storeShapeSpec (sl : List String) : List String → Bool
  | [_] => true
  | [_, x] => sl.contains x || isDigits x
  | [_, ser, rev] => sl.contains ser && isDigits rev
  | _ => false

/-- A character list contains no two adjacent separators. -/
def noDoubleSlash : List Char → Bool
  | [] => true
  | [_] => true
  | c :: c2 :: rest =>
    !(decide (c = '/' ∧ c2 = '/')) && noDoubleSlash (c2 :: rest)

/-- A path string is normalized when it has no repeated separator and
neither starts nor ends with the separator. -/
def isNormalized (s : String) : Bool :=
  noDoubleSlash s.toList && decide (s.toList.head? ≠ some '/') &&
    decide (s.toList.getLast? ≠ some '/')

/-- Field preservation for optional strings: when the first value is
committed it must appear unchanged in the second. -/
def optPresB (a b : Option String) : Bool :=
  match a with
  | none => true
  | some x => b == some x

/-- Field preservation for the optional gui record. -/
def guiPresB (a b : Option GuiState) : Bool :=
  match a with
  | none => true
  | some g => b == some g

/-- Every field committed in the first state is present unchanged in the
second state. -/
def navLeB (s1 s2 : NavState) : Bool :=
  optPresB s1.root s2.root && optPresB s1.search s2.search &&
    optPresB s1.profile s2.profile && optPresB s1.user s2.user &&
    optPresB s1.store s2.store && guiPresB s1.gui s2.gui

example : _getCleanPath "http://abc.com:123" "http://abc.com:123/a/b/c/d/" = "a/b/c/d" := by decide
example : _getCleanPath "http://abc.com:123" "http://abc.com:123///a/b/c/d/" = "a/b/c/d" := by decide
example : _getCleanPath "http://abc.com:123" "http://abc.com:123/a/b/c/d///" = "a/b/c/d" := by decide

/-! Validation of the model against the test suite's `_parseGUI`,
`_parseUser` and `buildState` vectors. -/

example : _parseGUI [] {} = ({}, some "invalid GUI path.") := by decide
example : _parseGUI ["inspector", "haproxy", "config"] {} =
    ({ gui := some { inspector := some "haproxy/config" } }, none) := by decide
example : _parseGUI ["machines"] {} =
    ({ gui := some { machines := some "" } }, none) := by decide
example : _parseGUI ["applications", "inspector", "ghost"] {} =
    ({ gui := some { applications := some "", inspector := some "ghost" } },
      none) := by decide
example : _parseGUI ["inspector", "service123", "relate-to", "serviceabc"] {} =
    ({ gui := some { inspector := some "service123/relate-to/serviceabc" } },
      none) := by decide
example :
    _parseGUI
      ["inspector", "apache2", "machines", "3", "lxc-0", "deploy", "foo"] {} =
    ({ gui := some { inspector := some "apache2", machines := some "3/lxc-0",
                     deploy := some "foo" } }, none) := by decide

example : _parseUser DEFAULT_SERIES_LIST [] {} = ({}, [], none) := by decide
example : _parseUser DEFAULT_SERIES_LIST ["u", "ant"] {} =
    ({ profile := some "ant" }, [], none) := by decide
example : _parseUser DEFAULT_SERIES_LIST ["u", "frankban", "settings"] {} =
    ({ profile := some "frankban/settings" }, [], none) := by decide
example : _parseUser DEFAULT_SERIES_LIST ["u", "frankban", "charms"] {} =
    ({ profile := some "frankban/charms" }, [], none) := by decide
example : _parseUser DEFAULT_SERIES_LIST ["u", "frankban", "issues"] {} =
    ({ profile := some "frankban/issues" }, [], none) := by decide
example : _parseUser DEFAULT_SERIES_LIST ["u", "frankban", "revenue"] {} =
    ({ profile := some "frankban/revenue" }, [], none) := by decide
example : _parseUser DEFAULT_SERIES_LIST ["u", "hatch", "staging", "haproxy"] {} =
    ({ user := some "hatch/staging" }, ["haproxy"], none) := by decide
example :
    _parseUser DEFAULT_SERIES_LIST
      ["u", "frankban", "production", "ghost", "xenial"] {} =
    ({ user := some "frankban/production" }, ["ghost", "xenial"], none) := by
  decide
example :
    _parseUser DEFAULT_SERIES_LIST ["u", "hatch", "charms", "ghost", "xenial"] {} =
    ({ profile := some "hatch/charms" }, ["ghost", "xenial"], none) := by decide
example :
    _parseUser DEFAULT_SERIES_LIST ["u", "hatch", "staging", "ghost", "42"] {} =
    ({ user := some "hatch/staging" }, ["ghost", "42"], none) := by decide
example :
    _parseUser DEFAULT_SERIES_LIST ["u", "hatch", "mongodb", "xenial"] {} =
    ({ store := some "hatch/mongodb/xenial" }, [], none) := by decide
example : _parseUser DEFAULT_SERIES_LIST ["u", "hatch", "mongodb", "47"] {} =
    ({ store := some "hatch/mongodb/47" }, [], none) := by decide
example :
    _parseUser DEFAULT_SERIES_LIST ["u", "frankban", "django", "bundle", "0"] {} =
    ({ store := some "frankban/django/bundle/0" }, [], none) := by decide
example :
    _parseUser DEFAULT_SERIES_LIST
      ["u", "hatch", "staging", "u", "frankban", "django"] {} =
    ({ user := some "hatch/staging", store := some "frankban/django" }, [],
      none) := by decide
example :
    _parseUser DEFAULT_SERIES_LIST
      ["u", "frankban", "production", "u", "hatch", "mongodb", "xenial"] {} =
    ({ user := some "frankban/production",
       store := some "hatch/mongodb/xenial" }, [], none) := by decide
example :
    _parseUser DEFAULT_SERIES_LIST
      ["u", "hatch", "staging", "u", "hatch", "django", "bundle", "0"] {} =
    ({ user := some "hatch/staging",
       store := some "hatch/django/bundle/0" }, [], none) := by decide
example :
    _parseUser DEFAULT_SERIES_LIST
      ["u", "hatch", "charms", "u", "hatch", "mongodb", "xenial"] {} =
    ({ profile := some "hatch/charms",
       store := some "hatch/mongodb/xenial" }, [], none) := by decide

example : buildState testState "http://abc.com:123/new" =
    ({ root := some "new" }, none) := by decide
example : buildState testState "http://abc.com:123/store" =
    ({ root := some "store" }, none) := by decide
example : buildState testState "http://abc.com:123/about" =
    ({ root := some "about" }, none) := by decide
example : buildState testState "http://abc.com:123/docs" =
    ({ root := some "docs" }, none) := by decide
example : buildState testState "http://abc.com:123/login" =
    ({ root := some "login" }, none) := by decide
example : buildState testState "http://abc.com:123/q/haproxy" =
    ({ search := some "haproxy" }, none) := by decide
example : buildState testState "http://abc.com:123/q/k8s/core" =
    ({ search := some "k8s/core" }, none) := by decide
example : buildState testState "http://abc.com:123/i/inspector/haproxy/config" =
    ({ gui := some { inspector := some "haproxy/config" } }, none) := by decide
example : buildState testState "http://abc.com:123/i/machines" =
    ({ gui := some { machines := some "" } }, none) := by decide
example :
    buildState testState "http://abc.com:123/i/applications/inspector/ghost" =
    ({ gui := some { applications := some "", inspector := some "ghost" } },
      none) := by decide
example :
    buildState testState
      "http://abc.com:123/i/inspector/apache2/machines/3/lxc-0/deploy/foo" =
    ({ gui := some { inspector := some "apache2", machines := some "3/lxc-0",
                     deploy := some "foo" } }, none) := by decide
example : buildState testState "http://abc.com:123/u/ant" =
    ({ profile := some "ant" }, none) := by decide
example : buildState testState "http://abc.com:123/u/hatch/staging" =
    ({ user := some "hatch/staging" }, none) := by decide
example : buildState testState "http://abc.com:123/u/hatch/mongodb/xenial" =
    ({ store := some "hatch/mongodb/xenial" }, none) := by decide
example : buildState testState "http://abc.com:123/u/hatch/mongodb/47" =
    ({ store := some "hatch/mongodb/47" }, none) := by decide
example : buildState testState "http://abc.com:123/u/frankban/django/bundle/0" =
    ({ store := some "frankban/django/bundle/0" }, none) := by decide
example : buildState testState "http://abc.com:123/haproxy" =
    ({ store := some "haproxy" }, none) := by decide
example : buildState testState "http://abc.com:123/haproxy/xenial" =
    ({ store := some "haproxy/xenial" }, none) := by decide
example : buildState testState "http://abc.com:123/haproxy/42" =
    ({ store := some "haproxy/42" }, none) := by decide
example : buildState testState "http://abc.com:123/django/bundle/47" =
    ({ store := some "django/bundle/47" }, none) := by decide

example : buildState testState "http://abc.com:123/u/hatch/staging/haproxy" =
    ({ user := some "hatch/staging", store := some "haproxy" }, none) := by
  decide
example :
    buildState testState "http://abc.com:123/u/frankban/production/ghost/xenial" =
    ({ user := some "frankban/production", store := some "ghost/xenial" },
      none) := by decide
example : buildState testState "http://abc.com:123/u/hatch/staging/ghost/42" =
    ({ user := some "hatch/staging", store := some "ghost/42" }, none) := by
  decide
example :
    buildState testState
      "http://abc.com:123/u/frankban/production/django/bundle/47" =
    ({ user := some "frankban/production",
       store := some "django/bundle/47" }, none) := by decide
example :
    buildState testState "http://abc.com:123/u/hatch/staging/u/frankban/django" =
    ({ user := some "hatch/staging", store := some "frankban/django" },
      none) := by decide
example :
    buildState testState
      "http://abc.com:123/u/frankban/production/u/hatch/mongodb/xenial" =
    ({ user := some "frankban/production",
       store := some "hatch/mongodb/xenial" }, none) := by decide
example :
    buildState testState "http://abc.com:123/u/hatch/staging/u/hatch/mongodb/47" =
    ({ user := some "hatch/staging", store := some "hatch/mongodb/47" },
      none) := by decide
example :
    buildState testState
      "http://abc.com:123/u/frankban/production/u/frankban/django/bundle/0" =
    ({ user := some "frankban/production",
       store := some "frankban/django/bundle/0" }, none) := by decide
example :
    buildState testState
      "http://abc.com:123/u/hatch/staging/i/inspector/haproxy/config" =
    ({ user := some "hatch/staging",
       gui := some { inspector := some "haproxy/config" } }, none) := by decide
example :
    buildState testState "http://abc.com:123/u/frankban/production/i/machines" =
    ({ user := some "frankban/production",
       gui := some { machines := some "" } }, none) := by decide
example :
    buildState testState
      "http://abc.com:123/u/hatch/staging/i/applications/inspector/ghost/" =
    ({ user := some "hatch/staging",
       gui := some { applications := some "", inspector := some "ghost" } },
      none) := by decide
example :
    buildState testState "http://abc.com:123/haproxy/i/inspector/haproxy/config" =
    ({ store := some "haproxy",
       gui := some { inspector := some "haproxy/config" } }, none) := by decide
example : buildState testState "http://abc.com:123/ghost/xenial/i/machines" =
    ({ store := some "ghost/xenial", gui := some { machines := some "" } },
      none) := by decide
example :
    buildState testState
      "http://abc.com:123/ghost/42/i/applications/inspector/ghost/" =
    ({ store := some "ghost/42",
       gui := some { applications := some "", inspector := some "ghost" } },
      none) := by decide
example : buildState testState "http://abc.com:123/django/bundle/47/i/machines" =
    ({ store := some "django/bundle/47",
       gui := some { machines := some "" } }, none) := by decide
example :
    buildState testState
      "http://abc.com:123/u/hatch/mongodb/xenial/i/applications/inspector/ghost/" =
    ({ store := some "hatch/mongodb/xenial",
       gui := some { applications := some "", inspector := some "ghost" } },
      none) := by decide
example :
    buildState testState
      "http://abc.com:123/u/frankban/django/bundle/0/i/machines" =
    ({ store := some "frankban/django/bundle/0",
       gui := some { machines := some "" } }, none) := by decide
example :
    buildState testState
      "http://abc.com:123/u/hatch/staging/haproxy/i/inspector/haproxy/config" =
    ({ user := some "hatch/staging", store := some "haproxy",
       gui := some { inspector := some "haproxy/config" } }, none) := by decide
example :
    buildState testState
      "http://abc.com:123/u/frankban/production/ghost/xenial/i/inspector/haproxy/config" =
    ({ user := some "frankban/production", store := some "ghost/xenial",
       gui := some { inspector := some "haproxy/config" } }, none) := by decide
example :
    buildState testState
      "http://abc.com:123/u/hatch/staging/ghost/42/i/inspector/haproxy/config" =
    ({ user := some "hatch/staging", store := some "ghost/42",
       gui := some { inspector := some "haproxy/config" } }, none) := by decide
example :
    buildState testState
      "http://abc.com:123/u/frankban/production/django/bundle/47/i/machines" =
    ({ user := some "frankban/production", store := some "django/bundle/47",
       gui := some { machines := some "" } }, none) := by decide
example :
    buildState testState
      "http://abc.com:123/u/hatch/staging/u/frankban/django/i/applications/inspector/ghost/" =
    ({ user := some "hatch/staging", store := some "frankban/django",
       gui := some { applications := some "", inspector := some "ghost" } },
      none) := by decide
example :
    buildState testState
      "http://abc.com:123/u/frankban/production/u/hatch/mongodb/xenial/i/machines" =
    ({ user := some "frankban/production",
       store := some "hatch/mongodb/xenial",
       gui := some { machines := some "" } }, none) := by decide
example :
    buildState testState
      "http://abc.com:123/u/hatch/staging/u/hatch/mongodb/47/i/applications/inspector/ghost/" =
    ({ user := some "hatch/staging", store := some "hatch/mongodb/47",
       gui := some { applications := some "", inspector := some "ghost" } },
      none) := by decide
example :
    buildState testState
      "http://abc.com:123/u/frankban/production/u/frankban/django/bundle/0/i/applications" =
    ({ user := some "frankban/production",
       store := some "frankban/django/bundle/0",
       gui := some { applications := some "" } }, none) := by decide

example : buildState testState "http://abc.com:123/u" =
    ({}, some "invalid user path.") := by decide
example : buildState testState "http://abc.com:123/u/frankban/u" =
    ({ profile := some "frankban" }, some "invalid user store path.") := by
  decide
example : buildState testState "http://abc.com:123/u/frankban/u/haproxy" =
    ({ profile := some "frankban" }, some "invalid user store path.") := by
  decide
example : buildState testState "http://abc.com:123/u/hatch/staging/u" =
    ({ user := some "hatch/staging" }, some "invalid user store path.") := by
  decide
example : buildState testState "http://abc.com:123/u/hatch/staging/u/hatch" =
    ({ user := some "hatch/staging" }, some "invalid user store path.") := by
  decide
example :
    buildState testState
      "http://abc.com:123/u/hatch/staging/u/hatch/ghost/trusty/42/wat" =
    ({ user := some "hatch/staging" }, some "invalid user store path.") := by
  decide
example : buildState testState "http://abc.com:123/u/hatch/staging/hatch/u/wat" =
    ({}, some "invalid user path.") := by decide
example :
    buildState testState
      "http://abc.com:123/u/frankban/production/u/frankban/i/applications" =
    ({ user := some "frankban/production",
       gui := some { applications := some "" } },
      some "invalid user store path.") := by decide
example : buildState testState "http://abc.com:123/about/wat" =
    ({ root := some "about" }, some "invalid root path.") := by decide
example : buildState testState "http://abc.com:123/no-such/i" =
    ({ store := some "no-such" }, some "invalid GUI path.") := by decide
example : buildState testState "http://abc.com:123/django/bundle/42/wat" =
    ({}, some "invalid store path.") := by decide
example : buildState testState "http://abc.com:123/ghost/u/frankban/ghost" =
    ({}, some "invalid user path.") := by decide

example : State.make { baseURL := some "http://abc.com:123" } =
    .ok { baseURL := "http://abc.com:123",
          seriesList := ["bundle", "precise", "trusty", "xenial"] } := rfl
example :
    State.make { baseURL := some "http://abc.com:123",
                 seriesList := some (.arr ["trusty"]) } =
    .ok { baseURL := "http://abc.com:123",
          seriesList := ["trusty", "bundle"] } := rfl
example : State.make {} = .error "baseURL must be provided." := rfl
example :
    State.make { baseURL := some "http://abc.com:123",
                 seriesList := some (.str "notanarray") } =
    .error "Series list must be an Array." := rfl

/-! Claim theorems. -/

/-- Claim C10: the user/store section parser applied to an empty segment
sequence declines without error — `_parseUser` of the empty list returns
the input state unchanged, an empty leftover list and a null error — in
contrast to the "invalid user path." failure produced when the
owner-prefix marker is present but no owner segment follows it. -/
theorem c10_parseUser_empty_declines :
    ∀ (sl : List String) (st : NavState),
      _parseUser sl [] st = (st, [], none) ∧
      _parseUser sl ["u"] st = (st, [], some "invalid user path.") := by
  intro sl st
  exact ⟨rfl, rfl⟩

/-- Claim C9: construction fails exactly on malformed configuration — a
missing baseURL and a non-array seriesList are rejected; an omitted
seriesList defaults to the built-in list, and a supplied seriesList gets
the literal "bundle" appended when absent, with the given order
otherwise preserved. -/
theorem c9_construction :
    (∀ slOpt, State.make { baseURL := none, seriesList := slOpt } =
        .error "baseURL must be provided.") ∧
    (∀ b s, State.make { baseURL := some b, seriesList := some (.str s) } =
        .error "Series list must be an Array.") ∧
    (∀ b, State.make { baseURL := some b, seriesList := none } =
        .ok { baseURL := b,
              seriesList := ["bundle", "precise", "trusty", "xenial"] }) ∧
    (∀ b l, l.contains "bundle" = false →
        State.make { baseURL := some b, seriesList := some (.arr l) } =
          .ok { baseURL := b, seriesList := l ++ ["bundle"] }) ∧
    (∀ b l, l.contains "bundle" = true →
        State.make { baseURL := some b, seriesList := some (.arr l) } =
          .ok { baseURL := b, seriesList := l }) ∧
    State.make { baseURL := some "http://abc.com:123",
                 seriesList := some (.arr ["trusty"]) } =
      .ok { baseURL := "http://abc.com:123",
            seriesList := ["trusty", "bundle"] } := by
  refine ⟨fun slOpt => rfl, fun b s => rfl, fun b => rfl, ?_, ?_, rfl⟩
  · intro b l h
    have h2 : "bundle" ∉ l := by simpa using h
    simp [State.make, h2]
  · intro b l h
    have h2 : "bundle" ∈ l := by simpa using h
    simp [State.make, h2]

/-- Witness for C9 at a concrete configuration. -/
theorem c9_construction_witness :
    State.make { baseURL := some "x", seriesList := some (.arr ["trusty"]) } =
      .ok { baseURL := "x", seriesList := ["trusty", "bundle"] } :=
  c9_construction.2.2.2.1 "x" ["trusty"] (by decide)

/-- Claim C5: a store match on the segments R succeeds exactly for the
shapes `[name]`, `[name, series-or-revision]`, `[name, series,
revision]` (series in the configured list, which contains the literal
"bundle"; revision all-digit), consuming all of R and producing the
slash-join of R; the claimed owner-prefixed examples and the owner-less
top-level store path behave accordingly. -/
theorem c5_store_shapes :
    (∀ (sl : List String) (R : List String),
      (storeMatch sl R).isSome = storeShapeSpec sl R) ∧
    (∀ (sl : List String) (R : List String) (s : String),
      storeMatch sl R = some s → s = joinSlash R) ∧
    DEFAULT_SERIES_LIST.contains "bundle" = true ∧
    _parseUser DEFAULT_SERIES_LIST ["u", "hatch", "mongodb", "xenial"] {} =
      ({ store := some "hatch/mongodb/xenial" }, [], none) ∧
    _parseUser DEFAULT_SERIES_LIST ["u", "hatch", "mongodb", "47"] {} =
      ({ store := some "hatch/mongodb/47" }, [], none) ∧
    _parseUser DEFAULT_SERIES_LIST ["u", "frankban", "django", "bundle", "0"] {} =
      ({ store := some "frankban/django/bundle/0" }, [], none) ∧
    buildState testState "http://abc.com:123/django/bundle/47" =
      ({ store := some "django/bundle/47" }, none) := by
  refine ⟨?_, ?_, by decide, by decide, by decide, by decide, by decide⟩
  · intro sl R
    match R with
    | [] => rfl
    | [n] => rfl
    | [n, x] =>
      cases h2 : isDigits x <;> by_cases hm : x ∈ sl <;>
        simp [storeMatch, storeShapeSpec, h2, hm]
    | [n, ser, rev] =>
      cases h2 : isDigits rev <;> by_cases hm : ser ∈ sl <;>
        simp [storeMatch, storeShapeSpec, h2, hm]
    | a :: b :: c :: d :: rest => rfl
  · intro sl R s h
    match R with
    | [] => exact absurd h (by simp [storeMatch])
    | [n] =>
      simp only [storeMatch, Option.some.injEq] at h
      simp [joinSlash, h.symm]
    | [n, x] =>
      simp only [storeMatch] at h
      split at h
      · simp only [Option.some.injEq] at h
        simp [joinSlash, h.symm]
      · exact absurd h (by simp)
    | [n, ser, rev] =>
      simp only [storeMatch] at h
      split at h
      · simp only [Option.some.injEq] at h
        simp [joinSlash, h.symm, String.append_assoc]
      · exact absurd h (by simp)
    | a :: b :: c :: d :: rest => exact absurd h (by simp [storeMatch])

/-- Witness for C5 at a concrete store path. -/
theorem c5_store_shapes_witness :
    "django/bundle/47" = joinSlash ["django", "bundle", "47"] :=
  c5_store_shapes.2.1 DEFAULT_SERIES_LIST ["django", "bundle", "47"]
    "django/bundle/47" (by decide)

/-- Claim C1: when a primary user section resolves (to a user
environment or a profile suffix) and its leftover segments begin with
the owner-prefix marker, the parse recurses into a nested user/store
parse and merges the resulting store into the accumulated state, so
user (or profile) and store coexist; concretely,
`buildState` of `/u/hatch/staging/u/frankban/django` yields both the
user `hatch/staging` and the store `frankban/django` with a null
error. -/
theorem c1_nested_merge :
    (∀ (sl : List String) (st : NavState) (owner env owner2 : String)
        (R2 : List String) (s : String),
      PROFILE_RESERVED.contains env = false → env ≠ "u" →
      storeMatch sl (env :: "u" :: owner2 :: R2) = none →
      storeMatch sl R2 = some s →
      _parseUser sl ("u" :: owner :: env :: "u" :: owner2 :: R2) st =
        ({ st with user := some (owner ++ "/" ++ env),
                   store := some (owner2 ++ "/" ++ s) }, [], none)) ∧
    (∀ (sl : List String) (st : NavState) (owner suf owner2 : String)
        (R2 : List String) (s : String),
      PROFILE_RESERVED.contains suf = true →
      storeMatch sl R2 = some s →
      _parseUser sl ("u" :: owner :: suf :: "u" :: owner2 :: R2) st =
        ({ st with profile := some (owner ++ "/" ++ suf),
                   store := some (owner2 ++ "/" ++ s) }, [], none)) ∧
    buildState testState "http://abc.com:123/u/hatch/staging/u/frankban/django" =
      ({ user := some "hatch/staging", store := some "frankban/django" },
        none) := by
  refine ⟨?_, ?_, by decide⟩
  · intro sl st owner env owner2 R2 s h1 h2 h3 h4
    have h1m : env ∉ PROFILE_RESERVED := by simpa using h1
    simp [_parseUser, handleLeftover, parseUserNested, h1m, h2, h3, h4]
  · intro sl st owner suf owner2 R2 s h1 h2
    have h1m : suf ∈ PROFILE_RESERVED := by simpa using h1
    simp [_parseUser, handleLeftover, parseUserNested, h1m, h2]

/-- Witness for C1 at the concrete nested path of the test suite. -/
theorem c1_nested_merge_witness :
    _parseUser DEFAULT_SERIES_LIST
      ["u", "hatch", "staging", "u", "frankban", "django"] {} =
      ({ user := some "hatch/staging", store := some "frankban/django" }, [],
        none) :=
  c1_nested_merge.1 DEFAULT_SERIES_LIST {} "hatch" "staging" "frankban"
    ["django"] "django" (by decide) (by decide) (by decide) (by decide)

/-- Claim C6: when a primary user section's remaining segments after the
owner have length at least two and do not match a valid store shape, the
parser falls back to the environment interpretation — `user` becomes
owner/R[0] and R[1:] is handed over unaltered as leftover for
re-parsing (returned as-is whenever it does not begin with the
owner-prefix marker); concretely `buildState` of
`/u/hatch/staging/haproxy` yields user `hatch/staging` and store
`haproxy` with a null error. -/
theorem c6_env_fallback :
    (∀ (sl : List String) (st : NavState) (owner r0 r1 : String)
        (rtl : List String),
      PROFILE_RESERVED.contains r0 = false → r0 ≠ "u" →
      storeMatch sl (r0 :: r1 :: rtl) = none →
      _parseUser sl ("u" :: owner :: r0 :: r1 :: rtl) st =
        handleLeftover sl { st with user := some (owner ++ "/" ++ r0) }
          (r1 :: rtl)) ∧
    (∀ (sl : List String) (st : NavState) (owner r0 r1 : String)
        (rtl : List String),
      PROFILE_RESERVED.contains r0 = false → r0 ≠ "u" →
      storeMatch sl (r0 :: r1 :: rtl) = none → r1 ≠ "u" →
      _parseUser sl ("u" :: owner :: r0 :: r1 :: rtl) st =
        ({ st with user := some (owner ++ "/" ++ r0) }, r1 :: rtl, none)) ∧
    buildState testState "http://abc.com:123/u/hatch/staging/haproxy" =
      ({ user := some "hatch/staging", store := some "haproxy" }, none) := by
  refine ⟨?_, ?_, by decide⟩
  · intro sl st owner r0 r1 rtl h1 h2 h3
    have h1m : r0 ∉ PROFILE_RESERVED := by simpa using h1
    simp [_parseUser, h1m, h2, h3]
  · intro sl st owner r0 r1 rtl h1 h2 h3 h4
    have h1m : r0 ∉ PROFILE_RESERVED := by simpa using h1
    simp [_parseUser, handleLeftover, h1m, h2, h3, h4]

/-- Witness for C6 at the concrete fallback path of the test suite. -/
theorem c6_env_fallback_witness :
    _parseUser DEFAULT_SERIES_LIST ["u", "hatch", "staging", "haproxy"] {} =
      ({ user := some "hatch/staging" }, ["haproxy"], none) :=
  c6_env_fallback.2.1 DEFAULT_SERIES_LIST {} "hatch" "staging" "haproxy" []
    (by decide) (by decide) (by decide) (by decide)

/-- Scanning a run of non-marker segments only accumulates them for the
current sub-marker. -/
theorem parseGUIloop_nomark :
    ∀ (vs : List String) (g : GuiState) (m : String) (acc tail : List String),
      vs.all (fun v => !GUI_MARKERS.contains v) = true →
      parseGUIloop g m acc (vs ++ tail) =
        parseGUIloop g m (vs.reverse ++ acc) tail := by
  intro vs
  induction vs with
  | nil => intro g m acc tail _; rfl
  | cons v vs ih =>
    intro g m acc tail h
    simp only [List.all_cons, Bool.and_eq_true] at h
    have hv : v ∉ GUI_MARKERS := by simpa using h.1
    have step : parseGUIloop g m acc ((v :: vs) ++ tail) =
        parseGUIloop g m (v :: acc) (vs ++ tail) := by
      simp [parseGUIloop, hv]
    rw [step, ih g m (v :: acc) tail h.2]
    simp

/-- Claim C7: in the GUI section each recognised sub-marker captures all
subsequent segments up to (but not including) the next recognised
sub-marker, joined with the separator into the sub-marker's value,
which is the empty string when nothing follows; when the first segment
of the section is not a recognised sub-marker — including the empty
section — the section fails with "invalid GUI path.". -/
theorem c7_gui_capture :
    (∀ (st : NavState), _parseGUI [] st = (st, some "invalid GUI path.")) ∧
    (∀ (st : NavState) (v : String) (rest : List String),
      GUI_MARKERS.contains v = false →
      _parseGUI (v :: rest) st = (st, some "invalid GUI path.")) ∧
    (∀ (g : GuiState) (m : String) (vs : List String) (m2 : String)
        (rest : List String),
      vs.all (fun v => !GUI_MARKERS.contains v) = true →
      GUI_MARKERS.contains m2 = true →
      parseGUIloop g m [] (vs ++ m2 :: rest) =
        parseGUIloop (setGui g m (joinSlash vs)) m2 [] rest) ∧
    (∀ (g : GuiState) (m : String) (vs : List String),
      vs.all (fun v => !GUI_MARKERS.contains v) = true →
      parseGUIloop g m [] vs = setGui g m (joinSlash vs)) ∧
    (∀ (g : GuiState) (m : String), parseGUIloop g m [] [] = setGui g m "") ∧
    _parseGUI ["applications", "inspector", "ghost"] {} =
      ({ gui := some { applications := some "", inspector := some "ghost" } },
        none) ∧
    _parseGUI ["inspector", "apache2", "machines", "3", "lxc-0", "deploy",
               "foo"] {} =
      ({ gui := some { inspector := some "apache2",
                       machines := some "3/lxc-0", deploy := some "foo" } },
        none) := by
  refine ⟨fun st => rfl, ?_, ?_, ?_, fun g m => rfl, by decide, by decide⟩
  · intro st v rest h
    have hm : v ∉ GUI_MARKERS := by simpa using h
    simp [_parseGUI, hm]
  · intro g m vs m2 rest h1 h2
    have hm : m2 ∈ GUI_MARKERS := by simpa using h2
    rw [parseGUIloop_nomark vs g m [] (m2 :: rest) h1]
    simp [parseGUIloop, hm]
  · intro g m vs h
    have := parseGUIloop_nomark vs g m [] [] h
    simp only [List.append_nil] at this
    rw [this]
    simp [parseGUIloop]

/-- Witness for C7 at a concrete capture. -/
theorem c7_gui_capture_witness :
    parseGUIloop {} "inspector" [] ["apache2", "machines", "3"] =
      parseGUIloop (setGui {} "inspector" "apache2") "machines" [] ["3"] :=
  c7_gui_capture.2.2.1 {} "inspector" ["apache2"] "machines" ["3"]
    (by decide) (by decide)

/-- Collapsing separators fixes a list without adjacent separators. -/
theorem collapseSl_id (l : List Char) (h : noDoubleSlash l = true) :
    collapseSl l = l := by
  induction l with
  | nil => rfl
  | cons c rest ih =>
    cases rest with
    | nil => rfl
    | cons c2 rest2 =>
      simp only [noDoubleSlash, Bool.and_eq_true] at h
      obtain ⟨h1, h2⟩ := h
      simp only [collapseSl]
      rw [if_neg (not_and_or.mpr (by simpa using h1)), ih h2]

/-- Stripping a leading separator fixes a list that does not start with
one. -/
theorem stripLead_id (l : List Char) (h : l.head? ≠ some '/') :
    stripLead l = l := by
  unfold stripLead
  split
  · simp at h
  · rfl

/-- Stripping a trailing separator fixes a list that does not end with
one. -/
theorem stripTrail_id (l : List Char) (h : l.getLast? ≠ some '/') :
    stripTrail l = l := by
  unfold stripTrail
  rw [stripLead_id l.reverse (by simpa using h)]
  simp

/-- Claim C8: path normalization fully collapses leading, trailing and
repeated separators after stripping the base prefix — the three
separator variants of `/a/b/c/d` all normalize to the same four-segment
sequence — and normalization is idempotent: an already-normalized path
(one that does not extend the base prefix) passes through the
normalizer with the identical segment sequence. -/
theorem c8_normalization :
    splitSegs (_getCleanPath "http://abc.com:123"
        "http://abc.com:123/a/b/c/d/") = ["a", "b", "c", "d"] ∧
    splitSegs (_getCleanPath "http://abc.com:123"
        "http://abc.com:123///a/b/c/d/") = ["a", "b", "c", "d"] ∧
    splitSegs (_getCleanPath "http://abc.com:123"
        "http://abc.com:123/a/b/c/d///") = ["a", "b", "c", "d"] ∧
    (∀ (base p : String), isNormalized p = true →
      base.toList.isPrefixOf p.toList = false →
      _getCleanPath base p = p ∧
        splitSegs (_getCleanPath base p) = splitSegs p) := by
  refine ⟨by decide, by decide, by decide, ?_⟩
  intro base p h1 h2
  simp only [isNormalized, Bool.and_eq_true, decide_eq_true_eq] at h1
  obtain ⟨⟨hd, hh⟩, hl⟩ := h1
  have hbase : stripBase base p = p := by
    unfold stripBase
    rw [if_neg (by rw [h2]; simp)]
  have hclean : _getCleanPath base p = p := by
    unfold _getCleanPath
    rw [hbase, collapseSl_id p.toList hd, stripLead_id p.toList hh,
        stripTrail_id p.toList hl]
    rfl
  exact ⟨hclean, by rw [hclean]⟩

/-- Witness for C8 at a concrete normalized path. -/
theorem c8_normalization_witness :
    _getCleanPath "http://abc.com:123" "a/b/c/d" = "a/b/c/d" ∧
      splitSegs (_getCleanPath "http://abc.com:123" "a/b/c/d") =
        splitSegs "a/b/c/d" :=
  c8_normalization.2.2.2 "http://abc.com:123" "a/b/c/d" (by decide) (by decide)

/-- The gui section parser reports no error or the GUI error. -/
theorem parseGUI_err (p : List String) (st : NavState) :
    (_parseGUI p st).2 = none ∨ (_parseGUI p st).2 = some "invalid GUI path." := by
  match p with
  | [] => exact Or.inr rfl
  | s :: rest =>
    by_cases h : s ∈ GUI_MARKERS
    · left
      simp [_parseGUI, h]
    · right
      simp [_parseGUI, h]

/-- The gui stage reports no error or the GUI error. -/
theorem guiStage_err (parts : List String) :
    (guiStage parts).2.2 = none ∨
      (guiStage parts).2.2 = some "invalid GUI path." := by
  unfold guiStage
  cases hg : (guiSplit parts).2 with
  | none => simp
  | some gparts => simpa using parseGUI_err gparts {}

/-- The nested user/store parse reports no error or the user-store
error. -/
theorem parseUserNested_err (sl : List String) (p : List String)
    (st : NavState) :
    (parseUserNested sl p st).2.2 = none ∨
      (parseUserNested sl p st).2.2 = some "invalid user store path." := by
  match p with
  | [] => exact Or.inr rfl
  | [a] => exact Or.inr rfl
  | a :: owner :: R =>
    cases hs : storeMatch sl R with
    | some s => simp [parseUserNested, hs]
    | none => simp [parseUserNested, hs]

/-- The leftover re-parser reports no error or the user-store error. -/
theorem handleLeftover_err (sl : List String) (st : NavState)
    (l : List String) :
    (handleLeftover sl st l).2.2 = none ∨
      (handleLeftover sl st l).2.2 = some "invalid user store path." := by
  unfold handleLeftover
  by_cases h : l.head? = some "u"
  · rw [if_pos h]
    exact parseUserNested_err sl l st
  · rw [if_neg h]
    exact Or.inl rfl

/-- The primary user/store section parser reports no error, the user
error or the user-store error. -/
theorem parseUser_err (sl : List String) (p : List String) (st : NavState) :
    (_parseUser sl p st).2.2 = none ∨
      (_parseUser sl p st).2.2 = some "invalid user path." ∨
      (_parseUser sl p st).2.2 = some "invalid user store path." := by
  match p with
  | [] => exact Or.inl rfl
  | p0 :: rest =>
    by_cases hp : p0 = "u"
    · subst hp
      match rest with
      | [] => exact Or.inr (Or.inl rfl)
      | owner :: R =>
        match R with
        | [] => exact Or.inl rfl
        | r0 :: rtail =>
          by_cases h1 : r0 ∈ PROFILE_RESERVED
          · have heq : _parseUser sl ("u" :: owner :: r0 :: rtail) st =
                handleLeftover sl
                  { st with profile := some (owner ++ "/" ++ r0) } rtail := by
              simp [_parseUser, h1]
            rcases handleLeftover_err sl
                { st with profile := some (owner ++ "/" ++ r0) } rtail with
              h | h
            · left
              rw [heq]
              exact h
            · right; right
              rw [heq]
              exact h
          · by_cases h2 : r0 = "u"
            · right; right
              subst h2
              simp [_parseUser, h1]
            · match rtail with
              | [] =>
                left
                simp [_parseUser, h1, h2]
              | r1 :: rtl =>
                cases hs : storeMatch sl (r0 :: r1 :: rtl) with
                | some s =>
                  left
                  simp [_parseUser, h1, h2, hs]
                | none =>
                  have heq : _parseUser sl ("u" :: owner :: r0 :: r1 :: rtl) st =
                      handleLeftover sl
                        { st with user := some (owner ++ "/" ++ r0) }
                        (r1 :: rtl) := by
                    simp [_parseUser, h1, h2, hs]
                  rcases handleLeftover_err sl
                      { st with user := some (owner ++ "/" ++ r0) }
                      (r1 :: rtl) with h | h
                  · left
                    rw [heq]
                    exact h
                  · right; right
                    rw [heq]
                    exact h
    · left
      simp [_parseUser, hp]

/-- The user stage reports no error, the user error or the user-store
error. -/
theorem userStage_err (sl : List String) (parts : List String)
    (st : NavState) :
    (userStage sl parts st).2.2 = none ∨
      (userStage sl parts st).2.2 = some "invalid user path." ∨
      (userStage sl parts st).2.2 = some "invalid user store path." := by
  unfold userStage
  by_cases h : parts.head? = some "u"
  · rw [if_pos h]
    exact parseUser_err sl parts st
  · rw [if_neg h]
    exact Or.inl rfl

/-- The store stage reports no error, a propagated GUI error, the
misplaced-marker user error or the store error. -/
theorem storeStage_err (sl : List String) (parts : List String)
    (st : NavState) (gerr : Option String)
    (hg : gerr = none ∨ gerr = some "invalid GUI path.") :
    (storeStage sl parts st gerr).2 = none ∨
      (storeStage sl parts st gerr).2 = some "invalid GUI path." ∨
      (storeStage sl parts st gerr).2 = some "invalid user path." ∨
      (storeStage sl parts st gerr).2 = some "invalid store path." := by
  unfold storeStage
  by_cases he : parts.isEmpty = true
  · simp only [he, if_true]
    rcases hg with h | h
    · exact Or.inl h
    · exact Or.inr (Or.inl h)
  · simp only [he, if_false]
    by_cases hc : "u" ∈ parts
    · simp [hc]
    · have hcb : parts.contains "u" = false := by simpa using hc
      simp only [hcb, Bool.false_eq_true, if_false]
      cases hs : storeMatch sl parts with
      | some s =>
        simp only [hs]
        rcases hg with h | h
        · exact Or.inl h
        · exact Or.inr (Or.inl h)
      | none =>
        simp only [hs]
        rcases hg with h | h
        · subst h
          simp
        · subst h
          simp

/-- The full orchestrator reports no error or one of the five fixed
error strings. -/
theorem buildStateSegs_err (sl : List String) (parts : List String) :
    (buildStateSegs sl parts).2 = none ∨
      (buildStateSegs sl parts).2 = some "invalid root path." ∨
      (buildStateSegs sl parts).2 = some "invalid store path." ∨
      (buildStateSegs sl parts).2 = some "invalid GUI path." ∨
      (buildStateSegs sl parts).2 = some "invalid user path." ∨
      (buildStateSegs sl parts).2 = some "invalid user store path." := by
  match parts with
  | [] => exact Or.inl rfl
  | p0 :: rest =>
    by_cases hr : p0 ∈ ROOT_RESERVED
    · have heq : buildStateSegs sl (p0 :: rest) =
          ({ root := some p0 },
            if rest.isEmpty then none else some "invalid root path.") := by
        simp [buildStateSegs, hr]
      rw [heq]
      by_cases he : rest.isEmpty = true
      · simp [he]
      · simp [he]
    · by_cases hq : p0 = "q"
      · subst hq
        match rest with
        | [] =>
          left
          simp [buildStateSegs, hr]
        | r :: rs =>
          left
          simp [buildStateSegs, hr]
      · have heq : buildStateSegs sl (p0 :: rest) =
            afterGui sl (guiStage (p0 :: rest)) := by
          simp [buildStateSegs, hr, hq]
        rw [heq]
        unfold afterGui
        rcases userStage_err sl (guiStage (p0 :: rest)).2.1
            (guiStage (p0 :: rest)).1 with hu | hu | hu
        · have heq2 : afterUser sl (guiStage (p0 :: rest)).2.2
              (userStage sl (guiStage (p0 :: rest)).2.1
                (guiStage (p0 :: rest)).1) =
              storeStage sl
                (userStage sl (guiStage (p0 :: rest)).2.1
                  (guiStage (p0 :: rest)).1).2.1
                (userStage sl (guiStage (p0 :: rest)).2.1
                  (guiStage (p0 :: rest)).1).1
                (guiStage (p0 :: rest)).2.2 := by
            unfold afterUser
            rw [hu]
          rw [heq2]
          rcases storeStage_err sl
              (userStage sl (guiStage (p0 :: rest)).2.1
                (guiStage (p0 :: rest)).1).2.1
              (userStage sl (guiStage (p0 :: rest)).2.1
                (guiStage (p0 :: rest)).1).1
              (guiStage (p0 :: rest)).2.2
              (guiStage_err (p0 :: rest)) with h | h | h | h
          · exact Or.inl h
          · exact Or.inr (Or.inr (Or.inr (Or.inl h)))
          · exact Or.inr (Or.inr (Or.inr (Or.inr (Or.inl h))))
          · exact Or.inr (Or.inr (Or.inl h))
        · unfold afterUser
          rw [hu]
          simp
        · unfold afterUser
          rw [hu]
          simp

/-- Claim C4: `buildState` is a total function of the configuration and
the path — modelling that it never throws on a malformed path string —
and for every input the returned error is either null or exactly one of
the five fixed strings "invalid root path.", "invalid store path.",
"invalid GUI path.", "invalid user path.", "invalid user store path.". -/
theorem c4_error_vocabulary :
    ∀ (stc : State) (url : String),
      (buildState stc url).2 = none ∨
      (buildState stc url).2 = some "invalid root path." ∨
      (buildState stc url).2 = some "invalid store path." ∨
      (buildState stc url).2 = some "invalid GUI path." ∨
      (buildState stc url).2 = some "invalid user path." ∨
      (buildState stc url).2 = some "invalid user store path." := by
  intro stc url
  exact buildStateSegs_err stc.seriesList
    (splitSegs (_getCleanPath stc.baseURL url))

/-- Counterexample for claim C3: on `/no-such/i` the GUI section fails
(`_parseGUI` of the empty section errors), yet the store section, which
the orchestrator attempts after the gui parse, still contributes the
field `store = "no-such"` to the returned state — so a section parser
attempted after the failing section does contribute a field. -/
theorem c3_counterexample :
    buildState testState "http://abc.com:123/no-such/i" =
      ({ store := some "no-such" }, some "invalid GUI path.") ∧
    _parseGUI [] {} = ({}, some "invalid GUI path.") ∧
    (buildState testState "http://abc.com:123/no-such/i").1.store =
      some "no-such" := by
  exact ⟨by decide, by decide, by decide⟩

/-- Claim C3 (amended): only a user/store-section failure stops parsing
immediately — when the user stage fails, the orchestrator returns
exactly that stage's state and error and the store stage contributes
nothing; the GUI section, however, is parsed before the user/store and
store sections, a GUI failure does not stop parsing (a later store
section may still contribute, as on `/no-such/i`), and a gui field may
coexist with a user/store error because gui is parsed first. -/
theorem c3_amended :
    (∀ (sl : List String) (p0 : String) (rest : List String)
        (st2 : NavState) (parts2 : List String) (e : String),
      ROOT_RESERVED.contains p0 = false → p0 ≠ "q" →
      userStage sl (guiStage (p0 :: rest)).2.1 (guiStage (p0 :: rest)).1 =
        (st2, parts2, some e) →
      buildStateSegs sl (p0 :: rest) = (st2, some e)) ∧
    buildState testState "http://abc.com:123/no-such/i" =
      ({ store := some "no-such" }, some "invalid GUI path.") ∧
    buildState testState
        "http://abc.com:123/u/frankban/production/u/frankban/i/applications" =
      ({ user := some "frankban/production",
         gui := some { applications := some "" } },
        some "invalid user store path.") := by
  refine ⟨?_, by decide, by decide⟩
  intro sl p0 rest st2 parts2 e h1 h2 h3
  have hr : p0 ∉ ROOT_RESERVED := by simpa using h1
  have heq : buildStateSegs sl (p0 :: rest) =
      afterGui sl (guiStage (p0 :: rest)) := by
    simp [buildStateSegs, hr, h2]
  rw [heq]
  unfold afterGui
  rw [h3]
  rfl

/-- Witness for the amended C3 at a concrete failing user path. -/
theorem c3_amended_witness :
    buildStateSegs DEFAULT_SERIES_LIST ["u"] =
      ({}, some "invalid user path.") :=
  c3_amended.1 DEFAULT_SERIES_LIST "u" [] {} [] "invalid user path."
    (by decide) (by decide) (by decide)

/-- Preservation is reflexive. -/
theorem optPresB_refl (a : Option String) : optPresB a a = true := by
  cases a <;> simp [optPresB]

/-- Preservation is reflexive for the gui record. -/
theorem guiPresB_refl (a : Option GuiState) : guiPresB a a = true := by
  cases a <;> simp [guiPresB]

/-- State inclusion is reflexive. -/
theorem navLeB_refl (s : NavState) : navLeB s s = true := by
  simp [navLeB, optPresB_refl, guiPresB_refl]

/-- An uncommitted field is trivially preserved. -/
theorem optPresB_none (b : Option String) : optPresB none b = true := rfl

/-- Setting an uncommitted store field preserves every committed
field. -/
theorem navLeB_setStore (st : NavState) (h : st.store = none) (v : String) :
    navLeB st { st with store := some v } = true := by
  simp [navLeB, h, optPresB_refl, guiPresB_refl, optPresB_none]

/-- The gui section parser never touches the store field. -/
theorem parseGUI_store (p : List String) (st : NavState) :
    (_parseGUI p st).1.store = st.store := by
  match p with
  | [] => rfl
  | s :: rest =>
    by_cases h : s ∈ GUI_MARKERS
    · simp [_parseGUI, h]
    · simp [_parseGUI, h]

/-- The gui stage leaves the store field uncommitted. -/
theorem guiStage_store (parts : List String) :
    (guiStage parts).1.store = none := by
  unfold guiStage
  cases hg : (guiSplit parts).2 with
  | none => simp
  | some gparts => simpa using parseGUI_store gparts {}

/-- The nested parse consumes all its segments. -/
theorem parseUserNested_parts (sl : List String) (p : List String)
    (st : NavState) : (parseUserNested sl p st).2.1 = [] := by
  match p with
  | [] => rfl
  | [a] => rfl
  | a :: owner :: R =>
    cases hs : storeMatch sl R with
    | some s => simp [parseUserNested, hs]
    | none => simp [parseUserNested, hs]

/-- The leftover re-parser either consumes all segments or leaves the
store field untouched. -/
theorem handleLeftover_store (sl : List String) (st : NavState)
    (l : List String) :
    (handleLeftover sl st l).2.1 = [] ∨
      (handleLeftover sl st l).1.store = st.store := by
  unfold handleLeftover
  by_cases h : l.head? = some "u"
  · rw [if_pos h]
    exact Or.inl (parseUserNested_parts sl l st)
  · rw [if_neg h]
    exact Or.inr rfl

/-- The user/store section either consumes all segments or leaves the
store field untouched. -/
theorem parseUser_store (sl : List String) (p : List String)
    (st : NavState) :
    (_parseUser sl p st).2.1 = [] ∨
      (_parseUser sl p st).1.store = st.store := by
  match p with
  | [] => exact Or.inl rfl
  | p0 :: rest =>
    by_cases hp : p0 = "u"
    · subst hp
      match rest with
      | [] => exact Or.inl rfl
      | owner :: R =>
        match R with
        | [] => exact Or.inl rfl
        | r0 :: rtail =>
          by_cases h1 : r0 ∈ PROFILE_RESERVED
          · have heq : _parseUser sl ("u" :: owner :: r0 :: rtail) st =
                handleLeftover sl
                  { st with profile := some (owner ++ "/" ++ r0) } rtail := by
              simp [_parseUser, h1]
            rw [heq]
            rcases handleLeftover_store sl
                { st with profile := some (owner ++ "/" ++ r0) } rtail with
              h | h
            · exact Or.inl h
            · exact Or.inr h
          · by_cases h2 : r0 = "u"
            · subst h2
              left
              simp [_parseUser, h1]
            · match rtail with
              | [] =>
                left
                simp [_parseUser, h1, h2]
              | r1 :: rtl =>
                cases hs : storeMatch sl (r0 :: r1 :: rtl) with
                | some s =>
                  left
                  simp [_parseUser, h1, h2, hs]
                | none =>
                  have heq :
                      _parseUser sl ("u" :: owner :: r0 :: r1 :: rtl) st =
                      handleLeftover sl
                        { st with user := some (owner ++ "/" ++ r0) }
                        (r1 :: rtl) := by
                    simp [_parseUser, h1, h2, hs]
                  rw [heq]
                  rcases handleLeftover_store sl
                      { st with user := some (owner ++ "/" ++ r0) }
                      (r1 :: rtl) with h | h
                  · exact Or.inl h
                  · exact Or.inr h
    · right
      simp [_parseUser, hp]

/-- The user stage either consumes all segments or leaves the store
field untouched. -/
theorem userStage_store (sl : List String) (parts : List String)
    (st : NavState) :
    (userStage sl parts st).2.1 = [] ∨
      (userStage sl parts st).1.store = st.store := by
  unfold userStage
  by_cases h : parts.head? = some "u"
  · rw [if_pos h]
    exact parseUser_store sl parts st
  · rw [if_neg h]
    exact Or.inr rfl

/-- Counterexample for claim C2: on `/u/hatch/staging/hatch/u/wat` the
primary user section resolves without error and commits
`user = "hatch/staging"` (with leftover `hatch/u/wat`), the later store
section then fails on the misplaced owner marker — and the returned
partial state is empty: the committed user field has been discarded,
not preserved. -/
theorem c2_counterexample :
    _parseUser DEFAULT_SERIES_LIST
        ["u", "hatch", "staging", "hatch", "u", "wat"] {} =
      ({ user := some "hatch/staging" }, ["hatch", "u", "wat"], none) ∧
    buildState testState "http://abc.com:123/u/hatch/staging/hatch/u/wat" =
      ({}, some "invalid user path.") ∧
    (buildState testState
        "http://abc.com:123/u/hatch/staging/hatch/u/wat").1.user = none := by
  exact ⟨by decide, by decide, by decide⟩

/-- Claim C2 (amended): for every path on which `buildState` returns a
non-null error, every field committed before the failure is present in
the returned state — except on the misplaced-owner-marker failure of
the store section, where `buildState` discards the accumulated state
and returns the empty state with "invalid user path."; a failing root
section still reports its committed root field. -/
theorem c2_amended :
    (∀ (sl : List String) (p0 : String) (rest : List String),
      ROOT_RESERVED.contains p0 = false → p0 ≠ "q" →
      (buildStateSegs sl (p0 :: rest)).2 ≠ none →
      (navLeB
          (userStage sl (guiStage (p0 :: rest)).2.1
            (guiStage (p0 :: rest)).1).1
          (buildStateSegs sl (p0 :: rest)).1 = true ∨
        buildStateSegs sl (p0 :: rest) = ({}, some "invalid user path."))) ∧
    (∀ (sl : List String) (p0 : String) (rest : List String),
      ROOT_RESERVED.contains p0 = true → rest ≠ [] →
      buildStateSegs sl (p0 :: rest) =
        ({ root := some p0 }, some "invalid root path.")) := by
  constructor
  · intro sl p0 rest h1 h2 hne
    have hr : p0 ∉ ROOT_RESERVED := by simpa using h1
    have heq : buildStateSegs sl (p0 :: rest) =
        afterGui sl (guiStage (p0 :: rest)) := by
      simp [buildStateSegs, hr, h2]
    rw [heq]
    set U := userStage sl (guiStage (p0 :: rest)).2.1
      (guiStage (p0 :: rest)).1 with hU
    cases hu : U.2.2 with
    | some e =>
      have hred : afterGui sl (guiStage (p0 :: rest)) = (U.1, some e) := by
        simp only [afterGui, afterUser, ← hU]
        rw [hu]
      rw [hred]
      exact Or.inl (navLeB_refl U.1)
    | none =>
      have hred : afterGui sl (guiStage (p0 :: rest)) =
          storeStage sl U.2.1 U.1 (guiStage (p0 :: rest)).2.2 := by
        simp only [afterGui, afterUser, ← hU]
        rw [hu]
      rw [hred]
      unfold storeStage
      by_cases he : U.2.1.isEmpty = true
      · simp only [he, if_true]
        exact Or.inl (navLeB_refl U.1)
      · simp only [he, if_false]
        by_cases hc : "u" ∈ U.2.1
        · have hcb : U.2.1.contains "u" = true := by simpa using hc
          simp only [hcb, if_true]
          exact Or.inr rfl
        · have hcb : U.2.1.contains "u" = false := by simpa using hc
          simp only [hcb, Bool.false_eq_true, if_false]
          cases hs : storeMatch sl U.2.1 with
          | some s =>
            simp only [hs]
            left
            have hstore : U.1.store = none := by
              rcases userStage_store sl (guiStage (p0 :: rest)).2.1
                  (guiStage (p0 :: rest)).1 with h | h
              · rw [← hU] at h
                exact absurd (by simp [h]) he
              · rw [← hU] at h
                rw [h]
                exact guiStage_store (p0 :: rest)
            exact navLeB_setStore U.1 hstore s
          | none =>
            simp only [hs]
            exact Or.inl (navLeB_refl U.1)
  · intro sl p0 rest h1 h2
    have hr : p0 ∈ ROOT_RESERVED := by simpa using h1
    match rest with
    | [] => exact absurd rfl h2
    | r :: rs => simp [buildStateSegs, hr]

/-- Witness for the amended C2 at a concrete failing path. -/
theorem c2_amended_witness :
    navLeB
        (userStage DEFAULT_SERIES_LIST (guiStage ["u"]).2.1
          (guiStage ["u"]).1).1
        (buildStateSegs DEFAULT_SERIES_LIST ["u"]).1 = true ∨
      buildStateSegs DEFAULT_SERIES_LIST ["u"] =
        ({}, some "invalid user path.") :=
  c2_amended.1 DEFAULT_SERIES_LIST "u" [] (by decide) (by decide) (by decide)

/-- Witness for C4 at a concrete malformed path. -/
theorem c4_error_vocabulary_witness :
    (buildState testState "http://abc.com:123/u").2 = none ∨
      (buildState testState "http://abc.com:123/u").2 =
        some "invalid root path." ∨
      (buildState testState "http://abc.com:123/u").2 =
        some "invalid store path." ∨
      (buildState testState "http://abc.com:123/u").2 =
        some "invalid GUI path." ∨
      (buildState testState "http://abc.com:123/u").2 =
        some "invalid user path." ∨
      (buildState testState "http://abc.com:123/u").2 =
        some "invalid user store path." :=
  c4_error_vocabulary testState "http://abc.com:123/u"

/-- Witness for C10 at the default configuration and the empty state. -/
theorem c10_parseUser_empty_declines_witness :
    _parseUser DEFAULT_SERIES_LIST [] {} = ({}, [], none) ∧
      _parseUser DEFAULT_SERIES_LIST ["u"] {} =
        ({}, [], some "invalid user path.") :=
  c10_parseUser_empty_declines DEFAULT_SERIES_LIST {}
